import Mathlib

/-!
Verification of the sol-lock program: a shallow embedding of the lock-record
state machine from `src/program/src/{state,processor,validation_utils,pack_utils,error}.rs`,
together with theorems about its invariants, transitions, error behaviour and
binary codec.
-/

set_option maxHeartbeats 1000000

namespace SolLock

/-- Account state enum from `state.rs` (`State`), with the same declaration
order as the Rust `repr(C)` enum, so discriminants are 0..6. -/
inductive State
  | Uninitialized
  | Initialized
  | HasFunds
  | HasDeadline
  | ReadyUnlocked
  | Locked
  | Staked
deriving DecidableEq, Repr

/-- Lock record from `state.rs` (`Account`).  Pubkeys are modelled as their
256-bit value (a `Nat`), `lamports` as the `u64` value, `deadline` as the
`i64` `UnixTimestamp`. -/
structure Account where
  owner : Nat
  lamports : Option Nat
  deadline : Option Int
  stake_account : Option Nat
  state : State
deriving DecidableEq, Repr

/-- Error enum from `error.rs` (`SolLockError`), same declaration order. -/
inductive SolLockError
  | PublicKeyMismatch
  | UninitializedAccount
  | IncorrectOwner
  | PublicKeysShouldBeUnique
  | NoFunds
  | InsufficientFunds
  | NewDeadlineTooEarly
  | FundsLocked
  | PrematureUnlock
  | UnpackError
  | ConflictingPayerInfo
  | ConflictingReceiverInfo
deriving DecidableEq, Repr

/-- Errors a call can end with: a program-specific `SolLockError`
(`ProgramError::Custom`), the two builtin `ProgramError`s the code uses, or a
Rust panic (`unwrap()` on `None`, `unreachable!()`, `unimplemented!()`), which
on-chain aborts the whole call without committing anything. -/
inductive ProgErr
  | custom : SolLockError → ProgErr
  | missingRequiredSignature
  | invalidInstructionData
  | panicked
deriving DecidableEq, Repr

/-- Metadata of an `AccountInfo` the processor reads: its key and signer flag. -/
structure AccountMeta where
  key : Nat
  is_signer : Bool
deriving DecidableEq, Repr

/-- Sequencing of fallible steps, the model of the Rust `?` operator: an
error short-circuits, a success feeds the next step. -/
def bindE {α β : Type} (x : Except ProgErr α) (f : α → Except ProgErr β) : Except ProgErr β :=
  match x with
  | .error e => .error e
  | .ok v => f v

/-- Validation from `validation_utils.rs::assert_is_signer`. -/
def assert_is_signer (account : AccountMeta) : Except ProgErr Unit :=
  if account.is_signer then .ok () else .error .missingRequiredSignature

/-- Validation from `validation_utils.rs::assert_keys_equal`. -/
def assert_keys_equal (key1 key2 : Nat) : Except ProgErr Unit :=
  if key1 ≠ key2 then .error (.custom .PublicKeyMismatch) else .ok ()

/-- Validation from `validation_utils.rs::assert_owned_by`: the storage owner
of the account must equal the expected program id. -/
def assert_owned_by (account_owner expected : Nat) : Except ProgErr Unit :=
  if account_owner ≠ expected then .error (.custom .IncorrectOwner) else .ok ()

/-- Validation from `validation_utils.rs::assert_initialized`: the unpacked
record must satisfy `is_initialized`, i.e. `state != Uninitialized`
(`state.rs::IsInitialized`). -/
def assert_initialized (a : Account) : Except ProgErr Unit :=
  if a.state = .Uninitialized then .error (.custom .UninitializedAccount) else .ok ()

/-- Validation from `validation_utils.rs::assert_has_funds`:
`lamports.is_some() && lamports.unwrap() > 0`. -/
def assert_has_funds (a : Account) : Except ProgErr Unit :=
  match a.lamports with
  | some v => if v > 0 then .ok () else .error (.custom .NoFunds)
  | none => .error (.custom .NoFunds)

/-- Validation from `validation_utils.rs::assert_sufficient_funds`:
`account.lamports.unwrap() < lamports_to_remove` is rejected.  The `unwrap()`
panics when `lamports` is absent. -/
def assert_sufficient_funds (a : Account) (lamports_to_remove : Nat) : Except ProgErr Unit :=
  match a.lamports with
  | none => .error .panicked
  | some v => if v < lamports_to_remove then .error (.custom .InsufficientFunds) else .ok ()

/-- Validation from `validation_utils.rs::assert_valid_new_deadline`:
rejected iff a deadline is stored and is strictly greater than the new one. -/
def assert_valid_new_deadline (a : Account) (deadline : Int) : Except ProgErr Unit :=
  match a.deadline with
  | some cur => if cur > deadline then .error (.custom .NewDeadlineTooEarly) else .ok ()
  | none => .ok ()

/-- Validation from `validation_utils.rs::assert_can_lock`. -/
def assert_can_lock (a : Account) : Except ProgErr Unit :=
  if a.state ≠ .ReadyUnlocked then .error .invalidInstructionData else .ok ()

/-- Validation from `validation_utils.rs::assert_can_unlock`: state must be
`Locked`, then `now < deadline.unwrap()` is a premature unlock (the `unwrap()`
panics when no deadline is stored). -/
def assert_can_unlock (a : Account) (now : Int) : Except ProgErr Unit :=
  if a.state ≠ .Locked then .error .invalidInstructionData
  else
    match a.deadline with
    | none => .error .panicked
    | some d => if now < d then .error (.custom .PrematureUnlock) else .ok ()

/-- Validation from `validation_utils.rs::assert_receiver_validity`: the
optional receiver account must agree with the `has_receiver` flag; both
mismatch directions return `ConflictingPayerInfo` (not
`ConflictingReceiverInfo`).  Returns the receiver to credit, defaulting to the
owner. -/
def assert_receiver_validity (owner_info : AccountMeta) (sol_receiver_account : Option AccountMeta)
    (has_receiver : Bool) : Except ProgErr AccountMeta :=
  match sol_receiver_account with
  | some rcv => if ¬ has_receiver then .error (.custom .ConflictingPayerInfo) else .ok rcv
  | none => if has_receiver then .error (.custom .ConflictingPayerInfo) else .ok owner_info

/-- Record written by `processor.rs::create_account` (lines 92-98): a fresh
`Initialized` record with all optional fields absent. -/
def create_account_record (owner : Nat) : Account :=
  { owner := owner, lamports := none, deadline := none, stake_account := none,
    state := .Initialized }

/-- State-transition body of `processor.rs::add_sol` (the `with_mut_data`
closure, lines 150-190): the `new_state` match and the `lamports` update
merged into one case split on the old state.  `u64` addition wraps modulo
`2 ^ 64` (release-profile overflow semantics); absent `lamports` in a
funds-carrying state would `unwrap()`-panic, mirroring the source.  Returns
the new record and the amount transferred in. -/
def add_sol_core (a : Account) (lamports : Nat) : Except ProgErr (Account × Nat) :=
  match a.state with
  | .Uninitialized => .error .panicked
  | .Initialized => .ok ({ a with state := .HasFunds, lamports := some lamports }, lamports)
  | .HasDeadline => .ok ({ a with state := .ReadyUnlocked, lamports := some lamports }, lamports)
  | .HasFunds =>
    match a.lamports with
    | some v => .ok ({ a with state := .HasFunds, lamports := some ((v + lamports) % 2 ^ 64) }, lamports)
    | none => .error .panicked
  | .ReadyUnlocked =>
    match a.lamports with
    | some v => .ok ({ a with state := .ReadyUnlocked, lamports := some ((v + lamports) % 2 ^ 64) }, lamports)
    | none => .error .panicked
  | .Locked =>
    match a.lamports with
    | some v => .ok ({ a with state := .Locked, lamports := some ((v + lamports) % 2 ^ 64) }, lamports)
    | none => .error .panicked
  | .Staked =>
    match a.lamports with
    | some v => .ok ({ a with state := .Staked, lamports := some ((v + lamports) % 2 ^ 64) }, lamports)
    | none => .error .panicked

/-- State-transition body of `processor.rs::remove_sol` (the `with_mut_data`
closure, lines 224-265): `assert_sufficient_funds` runs first, then
`assert_has_funds`; the `new_state` match (with its
`has_lamports_remaining` guard) and the `lamports` decrement are merged into
one case split on the old state.  Note the source decrements `lamports` to
`Some(old - amount)` in every success path and never clears it to `None`, and
`ReadyUnlocked` always stays `ReadyUnlocked`.  Returns the new record and the
amount transferred out. -/
def remove_sol_core (a : Account) (lamports : Nat) : Except ProgErr (Account × Nat) :=
  bindE (assert_sufficient_funds a lamports) fun _ =>
    bindE (assert_has_funds a) fun _ =>
      match a.state with
      | .HasFunds =>
        match a.lamports with
        | some v =>
          .ok ({ a with
                  state := if v > lamports then .HasFunds else .Initialized,
                  lamports := some (v - lamports) }, lamports)
        | none => .error .panicked
      | .ReadyUnlocked =>
        match a.lamports with
        | some v =>
          .ok ({ a with state := .ReadyUnlocked, lamports := some (v - lamports) }, lamports)
        | none => .error .panicked
      | .Initialized | .HasDeadline => .error (.custom .NoFunds)
      | .Locked | .Staked => .error (.custom .FundsLocked)
      | .Uninitialized => .error .panicked

/-- State-transition body of `processor.rs::set_deadline` (the `with_mut_data`
closure, lines 300-328): `assert_valid_new_deadline`, then the `new_state`
match and the unconditional `deadline := Some(deadline)` write. -/
def set_deadline_core (a : Account) (deadline : Int) : Except ProgErr Account :=
  bindE (assert_valid_new_deadline a deadline) fun _ =>
    match a.state with
    | .Uninitialized => .error .panicked
    | .Initialized => .ok { a with state := .HasDeadline, deadline := some deadline }
    | .HasFunds => .ok { a with state := .ReadyUnlocked, deadline := some deadline }
    | .HasDeadline => .ok { a with state := .HasDeadline, deadline := some deadline }
    | .ReadyUnlocked => .ok { a with state := .ReadyUnlocked, deadline := some deadline }
    | .Locked => .ok { a with state := .Locked, deadline := some deadline }
    | .Staked => .ok { a with state := .Locked, deadline := some deadline }

/-- State-transition body of `processor.rs::lock` (the `with_mut_data`
closure, lines 350-366): `assert_can_lock`, then `ReadyUnlocked -> Locked`. -/
def lock_core (a : Account) : Except ProgErr Account :=
  bindE (assert_can_lock a) fun _ =>
    match a.state with
    | .ReadyUnlocked => .ok { a with state := .Locked }
    | _ => .error .panicked

/-- State-transition body of `processor.rs::unlock` (the `with_mut_data`
closure, lines 395-441): `assert_can_unlock`, then `Locked -> Initialized`
with `lamports` taken (cleared), `deadline` and `stake_account` cleared.
Returns the new record and the amount transferred out. -/
def unlock_core (a : Account) (now : Int) : Except ProgErr (Account × Nat) :=
  bindE (assert_can_unlock a now) fun _ =>
    match a.state with
    | .Locked =>
      match a.lamports with
      | some l =>
        .ok ({ a with
                state := .Initialized,
                lamports := none,
                deadline := none,
                stake_account := none }, l)
      | none => .error .panicked
    | _ => .error .panicked

/-- Data-model invariant 1 of the spec: `locked_amount` is present iff
`state ∈ {HasFunds, ReadyUnlocked, Locked, Staked}`. -/
def inv_lamports (a : Account) : Prop :=
  a.lamports.isSome = true ↔
    (a.state = .HasFunds ∨ a.state = .ReadyUnlocked ∨ a.state = .Locked ∨ a.state = .Staked)

/-- Data-model invariant 2 of the spec: `deadline` is present iff
`state ∈ {HasDeadline, ReadyUnlocked, Locked, Staked}`. -/
def inv_deadline (a : Account) : Prop :=
  a.deadline.isSome = true ↔
    (a.state = .HasDeadline ∨ a.state = .ReadyUnlocked ∨ a.state = .Locked ∨ a.state = .Staked)

instance (a : Account) : Decidable (inv_lamports a) := by
  unfold inv_lamports; infer_instance

instance (a : Account) : Decidable (inv_deadline a) := by
  unfold inv_deadline; infer_instance

/-- Call environment a processor entry runs in: the deterministic address
derivation primitive (`Pubkey::find_program_address`, an external pure
function, kept abstract), the program id, the system program key, the owner
account, the key and storage owner of the passed sol-lock account, an optional
extra account (payer on `AddSol`, receiver on `RemoveSol` and `Unlock`), the
record currently stored in the sol-lock account, and the clock oracle's
current time. -/
structure Env where
  fpa : Nat → Nat → Nat → Nat
  program_id : Nat
  system_key : Nat
  owner : AccountMeta
  sol_lock_key : Nat
  sol_lock_storage_owner : Nat
  extra : Option AccountMeta
  record : Account
  now : Int

/-- A lamport transfer into the sol-lock account, as issued by
`system_instruction::transfer` in `add_sol`. -/
structure TransferIn where
  source : Nat
  dest : Nat
  amount : Nat
deriving DecidableEq, Repr

/-- Pipeline of `processor.rs::create_account` (lines 46-107): signer check,
derived-key check, storage owned by the system program, then the external
`invoke_signed` account creation (modelled as succeeding; its failures are
host-supplied) and the fresh record write. -/
def create_account (env : Env) (acc_index : Nat) : Except ProgErr Account :=
  bindE (assert_is_signer env.owner) fun _ =>
  bindE (assert_keys_equal (env.fpa env.owner.key acc_index env.program_id) env.sol_lock_key)
    fun _ =>
  bindE (assert_owned_by env.sol_lock_storage_owner env.system_key) fun _ =>
  .ok (create_account_record env.owner.key)

/-- Pipeline of `processor.rs::add_sol` (lines 115-193): resolve the payer
against `has_payer` (both mismatch directions are `ConflictingPayerInfo`),
signer checks on owner and payer, derived-key check, storage-ownership check,
initialization check, then the closure `add_sol_core`.  The transfer issued
by the source names `owner_info.key` as the source regardless of the resolved
payer. -/
def add_sol (env : Env) (acc_index lamports : Nat) (has_payer : Bool) :
    Except ProgErr (TransferIn × Account) :=
  bindE (match env.extra with
         | some p => if ¬ has_payer then .error (.custom .ConflictingPayerInfo) else .ok p
         | none => if has_payer then .error (.custom .ConflictingPayerInfo) else .ok env.owner)
    fun payer =>
  bindE (assert_is_signer env.owner) fun _ =>
  bindE (assert_is_signer payer) fun _ =>
  bindE (assert_keys_equal (env.fpa env.owner.key acc_index env.program_id) env.sol_lock_key)
    fun _ =>
  bindE (assert_owned_by env.sol_lock_storage_owner env.program_id) fun _ =>
  bindE (assert_initialized env.record) fun _ =>
  bindE (add_sol_core env.record lamports) fun ra =>
  .ok ({ source := env.owner.key,
         dest := env.fpa env.owner.key acc_index env.program_id,
         amount := ra.2 }, ra.1)

/-- Pipeline of `processor.rs::remove_sol` (lines 196-268): receiver
validation against `has_receiver`, signer check, derived-key check,
storage-ownership check, initialization check, then the closure
`remove_sol_core`.  Returns the new record, the amount debited from the lock
account and the key credited. -/
def remove_sol_full (env : Env) (acc_index lamports : Nat) (has_receiver : Bool) :
    Except ProgErr (Account × Nat × Nat) :=
  bindE (assert_receiver_validity env.owner env.extra has_receiver) fun receiver =>
  bindE (assert_is_signer env.owner) fun _ =>
  bindE (assert_keys_equal (env.fpa env.owner.key acc_index env.program_id) env.sol_lock_key)
    fun _ =>
  bindE (assert_owned_by env.sol_lock_storage_owner env.program_id) fun _ =>
  bindE (assert_initialized env.record) fun _ =>
  bindE (remove_sol_core env.record lamports) fun ra =>
  .ok (ra.1, ra.2, receiver.key)

/-- Pipeline of `processor.rs::set_deadline` (lines 271-331). -/
def set_deadline_full (env : Env) (acc_index : Nat) (deadline : Int) : Except ProgErr Account :=
  bindE (assert_is_signer env.owner) fun _ =>
  bindE (assert_keys_equal (env.fpa env.owner.key acc_index env.program_id) env.sol_lock_key)
    fun _ =>
  bindE (assert_owned_by env.sol_lock_storage_owner env.program_id) fun _ =>
  bindE (assert_initialized env.record) fun _ =>
  set_deadline_core env.record deadline

/-- Pipeline of `processor.rs::lock` (lines 334-369). -/
def lock_full (env : Env) (acc_index : Nat) : Except ProgErr Account :=
  bindE (assert_is_signer env.owner) fun _ =>
  bindE (assert_keys_equal (env.fpa env.owner.key acc_index env.program_id) env.sol_lock_key)
    fun _ =>
  bindE (assert_owned_by env.sol_lock_storage_owner env.program_id) fun _ =>
  bindE (assert_initialized env.record) fun _ =>
  lock_core env.record

/-- Pipeline of `processor.rs::unlock` (lines 372-444): receiver validation
against `has_receiver`, signer check, derived-key check, storage-ownership
check, initialization check, then the closure `unlock_core` at the clock
oracle's time.  Returns the new record, the amount debited and the key
credited. -/
def unlock_full (env : Env) (acc_index : Nat) (has_receiver : Bool) :
    Except ProgErr (Account × Nat × Nat) :=
  bindE (assert_receiver_validity env.owner env.extra has_receiver) fun receiver =>
  bindE (assert_is_signer env.owner) fun _ =>
  bindE (assert_keys_equal (env.fpa env.owner.key acc_index env.program_id) env.sol_lock_key)
    fun _ =>
  bindE (assert_owned_by env.sol_lock_storage_owner env.program_id) fun _ =>
  bindE (assert_initialized env.record) fun _ =>
  bindE (unlock_core env.record env.now) fun ra =>
  .ok (ra.1, ra.2, receiver.key)

/-- Instruction enum from `instruction.rs::SolLockInstruction`, with the
per-variant context fields. -/
inductive SolLockInstruction
  | CreateAccount (acc_index : Nat)
  | AddSol (acc_index lamports : Nat) (has_payer : Bool)
  | RemoveSol (acc_index lamports : Nat) (has_receiver : Bool)
  | SetDeadline (acc_index : Nat) (deadline : Int)
  | Lock (acc_index : Nat)
  | Unlock (acc_index : Nat) (has_receiver : Bool)
  | Stake (acc_index : Nat)
  | Unstake (acc_index : Nat)
deriving DecidableEq, Repr

/-- Dispatcher from `processor.rs::process_instruction` (lines 24-43):
routes each decoded instruction to its handler; `Stake` and `Unstake` hit
`unimplemented!()`, a panic that aborts the call. -/
def process_instruction (env : Env) : SolLockInstruction → Except ProgErr Unit
  | .CreateAccount idx => (create_account env idx).map fun _ => ()
  | .AddSol idx l hp => (add_sol env idx l hp).map fun _ => ()
  | .RemoveSol idx l hr => (remove_sol_full env idx l hr).map fun _ => ()
  | .SetDeadline idx d => (set_deadline_full env idx d).map fun _ => ()
  | .Lock idx => (lock_full env idx).map fun _ => ()
  | .Unlock idx hr => (unlock_full env idx hr).map fun _ => ()
  | .Stake _ => .error .panicked
  | .Unstake _ => .error .panicked

/-- Commit semantics of `with_mut_data` for record-only operations: an
error aborts the call, leaving the stored record as it was. -/
def commitRecord (a : Account) (r : Except ProgErr Account) : Account :=
  match r with
  | .ok b => b
  | .error _ => a

/-- Commit semantics of an `unlock` call on the triple
(stored record, lock-account balance, receiver balance): on success the
returned record is written and the amount moves from the lock account to the
receiver; on error (or panic) everything is untouched. -/
def run_unlock (env : Env) (acc_index : Nat) (has_receiver : Bool) (lockBal recvBal : Nat) :
    Account × Nat × Nat :=
  match unlock_full env acc_index has_receiver with
  | .ok (a, amt, _) => (a, lockBal - amt, recvBal + amt)
  | .error _ => (env.record, lockBal, recvBal)

/-- Composition of the fund-conservation scenario on (record, lock-account
balance): run `add_sol_core`, commit it and credit the transferred amount,
then run `remove_sol_core` on the result and, if it succeeds, commit it and
debit the transferred amount. -/
def add_then_remove_bal (st : Account × Nat) (x : Nat) : Account × Nat :=
  match add_sol_core st.1 x with
  | .error _ => st
  | .ok (a1, tin) =>
    match remove_sol_core a1 x with
    | .error _ => (a1, st.2 + tin)
    | .ok (a2, tout) => (a2, st.2 + tin - tout)

/-- Little-endian encoding of a value into a fixed number of bytes, as
`to_le_bytes` produces for `u64` and as the raw `[u8; 32]` of a pubkey. -/
def natToLE : Nat → Nat → List Nat
  | 0, _ => []
  | w + 1, v => v % 256 :: natToLE w (v / 256)

/-- Little-endian decoding of a byte list, as `from_le_bytes`. -/
def natFromLE : List Nat → Nat
  | [] => 0
  | b :: bs => b + 256 * natFromLE bs

/-- Two's-complement image of an `i64` as the unsigned 64-bit value whose
little-endian bytes `i64::to_le_bytes` produces. -/
def i64ToNat (d : Int) : Nat := (d % (2 ^ 64 : Int)).toNat

/-- Two's-complement reading of an unsigned 64-bit value as an `i64`, as
`i64::from_le_bytes` interprets the bytes. -/
def natToI64 (n : Nat) : Int :=
  if n < 2 ^ 63 then (n : Int) else (n : Int) - 2 ^ 64

/-- State tag written by `pack_into_slice` (`state_dst[0] = self.state as u8`),
using the `repr(C)` discriminants 0..6. -/
def stateToByte : State → Nat
  | .Uninitialized => 0
  | .Initialized => 1
  | .HasFunds => 2
  | .HasDeadline => 3
  | .ReadyUnlocked => 4
  | .Locked => 5
  | .Staked => 6

/-- State tag reading of `unpack_from_slice`
(`num::FromPrimitive::from_u8(state_src[0])`): the seven known discriminants
decode, anything else is `None`. -/
def byteToState (t : Nat) : Option State :=
  if t = 0 then some .Uninitialized
  else if t = 1 then some .Initialized
  else if t = 2 then some .HasFunds
  else if t = 3 then some .HasDeadline
  else if t = 4 then some .ReadyUnlocked
  else if t = 5 then some .Locked
  else if t = 6 then some .Staked
  else none

/-- Optional-field decoding from `pack_utils.rs::unpack_option`: presence
byte 0 is absent, 1 is present with the payload built from the remaining
bytes, anything else is an `UnpackError`; indexing an empty slice panics. -/
def unpack_option {T : Type} (src : List Nat) (build : List Nat → T) :
    Except ProgErr (Option T) :=
  match src with
  | [] => .error .panicked
  | b :: rest =>
    if b = 0 then .ok none
    else if b = 1 then .ok (some (build rest))
    else .error (.custom .UnpackError)

/-- Record encoding from `state.rs::pack_into_slice`: 32 owner bytes, then
presence byte + 8 bytes for `lamports`, presence byte + 8 bytes for
`deadline`, presence byte + 32 bytes for `stake_account` (payload regions
zero-filled when absent), then the state tag — 84 bytes in all. -/
def pack_into_slice (a : Account) : List Nat :=
  natToLE 32 a.owner
    ++ ((if a.lamports.isSome then 1 else 0) :: natToLE 8 (a.lamports.getD 0))
    ++ ((if a.deadline.isSome then 1 else 0) :: natToLE 8 (i64ToNat (a.deadline.getD 0)))
    ++ ((if a.stake_account.isSome then 1 else 0) :: natToLE 32 (a.stake_account.getD 0))
    ++ [stateToByte a.state]

/-- Record decoding from `state.rs::unpack_from_slice`: `array_refs!` splits
the source into the five fixed-width regions (panicking when fewer than 84
bytes are available), the three optionals decode via `unpack_option`, and an
unrecognized state tag is an `UnpackError`. -/
def unpack_from_slice (src : List Nat) : Except ProgErr Account :=
  if src.length < 84 then .error .panicked
  else
    let owner_src := src.take 32
    let rest1 := src.drop 32
    let lamports_src := rest1.take 9
    let rest2 := rest1.drop 9
    let deadline_src := rest2.take 9
    let rest3 := rest2.drop 9
    let stake_account_src := rest3.take 33
    let state_src := rest3.drop 33
    match unpack_option lamports_src natFromLE with
    | .error e => .error e
    | .ok lamports =>
      match unpack_option deadline_src (fun b => natToI64 (natFromLE b)) with
      | .error e => .error e
      | .ok deadline =>
        match unpack_option stake_account_src natFromLE with
        | .error e => .error e
        | .ok stake_account =>
          match state_src with
          | [] => .error .panicked
          | tag :: _ =>
            match byteToState tag with
            | none => .error (.custom .UnpackError)
            | some st =>
              .ok { owner := natFromLE owner_src, lamports := lamports,
                    deadline := deadline, stake_account := stake_account, state := st }

/-- Well-formedness of a record's field values: the pubkeys fit in 32 bytes,
`lamports` fits in a `u64` and `deadline` in an `i64` (vacuous for absent
fields, whose payload is zero). -/
def Account.valid (a : Account) : Prop :=
  a.owner < 2 ^ 256 ∧
  a.lamports.getD 0 < 2 ^ 64 ∧
  (-(2 ^ 63) ≤ a.deadline.getD 0 ∧ a.deadline.getD 0 < 2 ^ 63) ∧
  a.stake_account.getD 0 < 2 ^ 256

instance (a : Account) : Decidable a.valid := by
  unfold Account.valid; infer_instance

/-- Concrete call environment used to evaluate the model at specific inputs:
the derivation primitive is constantly 42, the owner (key 1) signs, the lock
account has key 42 and is storage-owned by program id 7, no extra account is
passed, and the stored record is freshly created. -/
def sampleEnv : Env :=
  { fpa := fun _ _ _ => 42, program_id := 7, system_key := 3,
    owner := { key := 1, is_signer := true }, sol_lock_key := 42,
    sol_lock_storage_owner := 7, extra := none,
    record := { owner := 1, lamports := none, deadline := none, stake_account := none,
                state := .Initialized },
    now := 0 }

/-- Environment with an explicit alternate payer account (key 2, a signer). -/
def payerEnv : Env := { sampleEnv with extra := some { key := 2, is_signer := true } }

/-- Record holding 2^63 lamports in state `HasFunds`, at which a deposit of
another 2^63 lamports wraps the u64 amount. -/
def c3_record : Account :=
  { owner := 1, lamports := some (2 ^ 63), deadline := none, stake_account := none,
    state := .HasFunds }

/-- Record with a stored deadline of 10 in state `HasDeadline`. -/
def c7_record : Account :=
  { owner := 1, lamports := none, deadline := some 10, stake_account := none,
    state := .HasDeadline }

instance {ε α : Type} [DecidableEq ε] [DecidableEq α] : DecidableEq (Except ε α) := fun x y =>
  match x, y with
  | .ok a, .ok b =>
    if h : a = b then isTrue (by rw [h])
    else isFalse (by intro hc; injection hc; contradiction)
  | .error e, .error f =>
    if h : e = f then isTrue (by rw [h])
    else isFalse (by intro hc; injection hc; contradiction)
  | .ok _, .error _ => isFalse (by intro hc; exact Except.noConfusion hc)
  | .error _, .ok _ => isFalse (by intro hc; exact Except.noConfusion hc)

theorem natToLE_length (w : Nat) : ∀ v : Nat, (natToLE w v).length = w := by
  induction w with
  | zero => intro v; rfl
  | succ n ih => intro v; simp [natToLE, ih]

theorem natFromLE_natToLE (w : Nat) : ∀ v : Nat, v < 256 ^ w → natFromLE (natToLE w v) = v := by
  induction w with
  | zero =>
    intro v h
    simp [natToLE, natFromLE]
    omega
  | succ n ih =>
    intro v h
    have hd : v / 256 < 256 ^ n := by
      rw [Nat.div_lt_iff_lt_mul (by norm_num)]
      calc v < 256 ^ (n + 1) := h
        _ = 256 ^ n * 256 := by ring
    simp [natToLE, natFromLE, ih _ hd]
    omega

theorem i64ToNat_lt (d : Int) : i64ToNat d < 2 ^ 64 := by
  unfold i64ToNat
  have h0 : (0 : Int) ≤ d % 2 ^ 64 := Int.emod_nonneg d (by norm_num)
  have h1 : d % 2 ^ 64 < 2 ^ 64 := Int.emod_lt_of_pos d (by norm_num)
  omega

theorem natToI64_i64ToNat (d : Int) (h1 : -(2 ^ 63) ≤ d) (h2 : d < 2 ^ 63) :
    natToI64 (i64ToNat d) = d := by
  unfold natToI64 i64ToNat
  have h0 : (0 : Int) ≤ d % 2 ^ 64 := Int.emod_nonneg d (by norm_num)
  have h3 : d % 2 ^ 64 < 2 ^ 64 := Int.emod_lt_of_pos d (by norm_num)
  split <;> omega

theorem byteToState_stateToByte (s : State) : byteToState (stateToByte s) = some s := by
  cases s <;> rfl

theorem take_append_len {α : Type} (l1 l2 : List α) (n : Nat) (h : l1.length = n) :
    (l1 ++ l2).take n = l1 := by
  subst h; exact List.take_left l1 l2

theorem drop_append_len {α : Type} (l1 l2 : List α) (n : Nat) (h : l1.length = n) :
    (l1 ++ l2).drop n = l2 := by
  subst h; exact List.drop_left l1 l2

theorem pack_length (a : Account) : (pack_into_slice a).length = 84 := by
  simp [pack_into_slice, natToLE_length]

theorem unpack_pack (a : Account) (h : a.valid) :
    unpack_from_slice (pack_into_slice a) = .ok a := by
  obtain ⟨ho, hl, hd, hs⟩ := h
  obtain ⟨ao, al, ad, asa, ast⟩ := a
  simp only at ho hl hd hs
  unfold unpack_from_slice
  rw [if_neg (by rw [pack_length]; omega)]
  unfold pack_into_slice
  simp only [List.append_assoc]
  rw [take_append_len _ _ 32 (natToLE_length 32 ao),
      drop_append_len _ _ 32 (natToLE_length 32 ao)]
  rw [take_append_len _ _ 9 (by simp [natToLE_length]),
      drop_append_len _ _ 9 (by simp [natToLE_length])]
  rw [take_append_len _ _ 9 (by simp [natToLE_length]),
      drop_append_len _ _ 9 (by simp [natToLE_length])]
  rw [take_append_len _ _ 33 (by simp [natToLE_length]),
      drop_append_len _ _ 33 (by simp [natToLE_length])]
  rw [natFromLE_natToLE 32 ao (by norm_num at ho ⊢; exact ho)]
  cases al with
  | none =>
    cases ad with
    | none =>
      cases asa with
      | none => simp [unpack_option, byteToState_stateToByte]
      | some s =>
        simp only [Option.getD_some] at hs
        simp [unpack_option, byteToState_stateToByte,
          natFromLE_natToLE 32 s (by norm_num at hs ⊢; exact hs)]
    | some d =>
      simp only [Option.getD_some] at hd
      cases asa with
      | none =>
        simp [unpack_option, byteToState_stateToByte,
          natFromLE_natToLE 8 (i64ToNat d) (by have := i64ToNat_lt d; norm_num at this ⊢; exact this),
          natToI64_i64ToNat d hd.1 hd.2]
      | some s =>
        simp only [Option.getD_some] at hs
        simp [unpack_option, byteToState_stateToByte,
          natFromLE_natToLE 8 (i64ToNat d) (by have := i64ToNat_lt d; norm_num at this ⊢; exact this),
          natToI64_i64ToNat d hd.1 hd.2,
          natFromLE_natToLE 32 s (by norm_num at hs ⊢; exact hs)]
  | some v =>
    simp only [Option.getD_some] at hl
    cases ad with
    | none =>
      cases asa with
      | none =>
        simp [unpack_option, byteToState_stateToByte,
          natFromLE_natToLE 8 v (by norm_num at hl ⊢; exact hl)]
      | some s =>
        simp only [Option.getD_some] at hs
        simp [unpack_option, byteToState_stateToByte,
          natFromLE_natToLE 8 v (by norm_num at hl ⊢; exact hl),
          natFromLE_natToLE 32 s (by norm_num at hs ⊢; exact hs)]
    | some d =>
      simp only [Option.getD_some] at hd
      cases asa with
      | none =>
        simp [unpack_option, byteToState_stateToByte,
          natFromLE_natToLE 8 v (by norm_num at hl ⊢; exact hl),
          natFromLE_natToLE 8 (i64ToNat d) (by have := i64ToNat_lt d; norm_num at this ⊢; exact this),
          natToI64_i64ToNat d hd.1 hd.2]
      | some s =>
        simp only [Option.getD_some] at hs
        simp [unpack_option, byteToState_stateToByte,
          natFromLE_natToLE 8 v (by norm_num at hl ⊢; exact hl),
          natFromLE_natToLE 8 (i64ToNat d) (by have := i64ToNat_lt d; norm_num at this ⊢; exact this),
          natToI64_i64ToNat d hd.1 hd.2,
          natFromLE_natToLE 32 s (by norm_num at hs ⊢; exact hs)]

theorem byteToState_none (t : Nat) (h : 7 ≤ t) : byteToState t = none := by
  unfold byteToState
  split_ifs <;> first | rfl | omega

theorem unpack_unknown_tag (ob s1 s2 s3 : List Nat) (tag : Nat)
    (h1 : ob.length = 32) (h2 : s1.length = 9) (h3 : s2.length = 9) (h4 : s3.length = 33)
    (h5 : 7 ≤ tag) :
    unpack_from_slice (ob ++ s1 ++ s2 ++ s3 ++ [tag]) = .error (.custom .UnpackError) := by
  unfold unpack_from_slice
  rw [if_neg (by simp [h1, h2, h3, h4])]
  simp only [List.append_assoc]
  rw [take_append_len _ _ 32 h1, drop_append_len _ _ 32 h1,
      take_append_len _ _ 9 h2, drop_append_len _ _ 9 h2,
      take_append_len _ _ 9 h3, drop_append_len _ _ 9 h3,
      take_append_len _ _ 33 h4, drop_append_len _ _ 33 h4]
  obtain ⟨b1, r1, rfl⟩ : ∃ b r, s1 = b :: r := by
    cases s1 with
    | nil => simp at h2
    | cons x xs => exact ⟨x, xs, rfl⟩
  obtain ⟨b2, r2, rfl⟩ : ∃ b r, s2 = b :: r := by
    cases s2 with
    | nil => simp at h3
    | cons x xs => exact ⟨x, xs, rfl⟩
  obtain ⟨b3, r3, rfl⟩ : ∃ b r, s3 = b :: r := by
    cases s3 with
    | nil => simp at h4
    | cons x xs => exact ⟨x, xs, rfl⟩
  simp only [unpack_option, byteToState_none tag h5]
  split_ifs <;> simp

/-- Claim C8: for every valid record `r`, decoding the 84-byte encoding of
`r` yields `r` again; encoding is total and always produces exactly 84 bytes;
and decoding any 84-byte image whose state tag is outside the seven known
values fails with the decoding error `UnpackError`. -/
theorem c8_codec_roundtrip :
    (∀ a : Account, a.valid → unpack_from_slice (pack_into_slice a) = .ok a)
    ∧ (∀ a : Account, (pack_into_slice a).length = 84)
    ∧ (∀ ob s1 s2 s3 : List Nat, ∀ tag : Nat,
        ob.length = 32 → s1.length = 9 → s2.length = 9 → s3.length = 33 → 7 ≤ tag →
        unpack_from_slice (ob ++ s1 ++ s2 ++ s3 ++ [tag]) = .error (.custom .UnpackError)) :=
  ⟨unpack_pack, pack_length, unpack_unknown_tag⟩

/-- Witness for C8 at a concrete record (all optionals present, negative
deadline) and at a concrete 84-byte image with state tag 9. -/
theorem c8_codec_roundtrip_witness :
    unpack_from_slice (pack_into_slice
        { owner := 3, lamports := some 7, deadline := some (-5),
          stake_account := some 11, state := .Locked })
      = .ok { owner := 3, lamports := some 7, deadline := some (-5),
              stake_account := some 11, state := .Locked }
    ∧ unpack_from_slice (List.replicate 32 0 ++ List.replicate 9 0 ++ List.replicate 9 0
          ++ List.replicate 33 0 ++ [9]) = .error (.custom .UnpackError) :=
  ⟨c8_codec_roundtrip.1 _ (by decide),
   c8_codec_roundtrip.2.2 _ _ _ _ 9 (by decide) (by decide) (by decide) (by decide) (by decide)⟩

/-- Claim C1 (code evidence): a full withdrawal from a `HasFunds` record that
satisfies both data-model invariants commits successfully, but the committed
record is `Initialized` with `locked_amount = Some 0` still present, violating
invariant 1 (`locked_amount` present iff the state is `HasFunds`,
`ReadyUnlocked`, `Locked` or `Staked`). -/
theorem c1_full_withdrawal_breaks_invariant :
    inv_lamports { owner := 1, lamports := some 5, deadline := none, stake_account := none,
                   state := .HasFunds }
    ∧ inv_deadline { owner := 1, lamports := some 5, deadline := none, stake_account := none,
                     state := .HasFunds }
    ∧ remove_sol_core { owner := 1, lamports := some 5, deadline := none, stake_account := none,
                        state := .HasFunds } 5
      = .ok ({ owner := 1, lamports := some 0, deadline := none, stake_account := none,
               state := .Initialized }, 5)
    ∧ ¬ inv_lamports { owner := 1, lamports := some 0, deadline := none, stake_account := none,
                       state := .Initialized } := by
  refine ⟨by decide, by decide, rfl, by decide⟩

/-- Claim C2 (code evidence): at remainder 0, a withdrawal from `HasFunds`
commits `Initialized` with `locked_amount = Some 0` instead of clearing it,
and a withdrawal from `ReadyUnlocked` keeps state `ReadyUnlocked` with
`locked_amount = Some 0` instead of moving to `HasDeadline` with the amount
cleared. -/
theorem c2_full_withdrawal_divergence :
    remove_sol_core { owner := 1, lamports := some 500, deadline := none, stake_account := none,
                      state := .HasFunds } 500
      = .ok ({ owner := 1, lamports := some 0, deadline := none, stake_account := none,
               state := .Initialized }, 500)
    ∧ remove_sol_core { owner := 1, lamports := some 500, deadline := some 9,
                        stake_account := none, state := .ReadyUnlocked } 500
      = .ok ({ owner := 1, lamports := some 0, deadline := some 9, stake_account := none,
               state := .ReadyUnlocked }, 500) := by
  exact ⟨rfl, rfl⟩

/-- Claim C4 (code evidence): with an explicit alternate payer (key 2, a
signer, `has_payer = true`) the deposit succeeds, yet the transfer it issues
names the owner (key 1) as the source, not the payer. -/
theorem c4_transfer_debits_owner_not_payer :
    add_sol payerEnv 0 100 true
      = .ok ({ source := 1, dest := 42, amount := 100 },
             { owner := 1, lamports := some 100, deadline := none, stake_account := none,
               state := .HasFunds })
    ∧ payerEnv.extra = some { key := 2, is_signer := true }
    ∧ (1 : Nat) ≠ 2 := by
  refine ⟨rfl, rfl, by decide⟩

/-- Claim C5 (code evidence): a withdrawal from an `Initialized` record with
`locked_amount` absent panics inside `assert_sufficient_funds` (an `unwrap()`
of `None`) before the no-funds check can run, and with `locked_amount =
Some 0` and a positive amount it fails with `InsufficientFunds` — in neither
case is the claimed `NoFunds` error reported. -/
theorem c5_remove_on_initialized_panics :
    remove_sol_core { owner := 1, lamports := none, deadline := none, stake_account := none,
                      state := .Initialized } 5
      = .error .panicked
    ∧ remove_sol_core { owner := 1, lamports := some 0, deadline := none, stake_account := none,
                        state := .Initialized } 5
      = .error (.custom .InsufficientFunds)
    ∧ (ProgErr.panicked ≠ .custom .NoFunds) := by
  refine ⟨rfl, rfl, by decide⟩

/-- Claim C9 (counterexample): invoking Stake at a concrete environment ends
in the unimplemented panic, which is not any `SolLockError` taxonomy
variant, so the call does not fail with a defined "not supported" outcome
from the error taxonomy. -/
theorem c9_stake_not_taxonomy_error :
    process_instruction sampleEnv (.Stake 0) = .error .panicked
    ∧ ¬ ∃ e : SolLockError, process_instruction sampleEnv (.Stake 0) = .error (.custom e) := by
  refine ⟨rfl, ?_⟩
  rintro ⟨e, he⟩
  rw [show process_instruction sampleEnv (.Stake 0) = .error .panicked from rfl] at he
  exact ProgErr.noConfusion (Except.error.inj he)

/-- Claim C9 (amended): every Stake or Unstake invocation aborts with the
unimplemented panic, so it never silently succeeds and never commits a record
change, but the failure is a panic rather than one of the declared
error-taxonomy variants. -/
theorem c9_stake_unstake_always_panic (env : Env) (idx : Nat) :
    process_instruction env (.Stake idx) = .error .panicked
    ∧ process_instruction env (.Unstake idx) = .error .panicked
    ∧ (∀ e : SolLockError, process_instruction env (.Stake idx) ≠ .error (.custom e))
    ∧ (∀ e : SolLockError, process_instruction env (.Unstake idx) ≠ .error (.custom e)) := by
  refine ⟨rfl, rfl, ?_, ?_⟩ <;>
    exact fun e he => ProgErr.noConfusion (Except.error.inj he)

/-- Claim C7: once a deadline `d` is stored on a record, `SetDeadline t` with
`t` strictly earlier than `d` fails with the `NewDeadlineTooEarly` temporal
error and leaves the record unchanged, while any `t ≥ d` passes the
temporal-ordering check `assert_valid_new_deadline`. -/
theorem c7_deadline_monotonic (a : Account) (d t : Int) (h : a.deadline = some d) :
    (t < d →
      set_deadline_core a t = .error (.custom .NewDeadlineTooEarly)
      ∧ commitRecord a (set_deadline_core a t) = a)
    ∧ (d ≤ t → assert_valid_new_deadline a t = .ok ()) := by
  constructor
  · intro hlt
    have he : set_deadline_core a t = .error (.custom .NewDeadlineTooEarly) := by
      unfold set_deadline_core assert_valid_new_deadline
      rw [h]
      simp only [if_pos hlt, bindE]
    exact ⟨he, by simp [commitRecord, he]⟩
  · intro hge
    unfold assert_valid_new_deadline
    rw [h]
    simp only [if_neg (by omega : ¬ d > t)]

/-- Witness for C7 at the concrete record with stored deadline 10: setting 4
is rejected without touching the record and setting 12 passes the check. -/
theorem c7_deadline_monotonic_witness :
    (set_deadline_core c7_record 4 = .error (.custom .NewDeadlineTooEarly)
      ∧ commitRecord c7_record (set_deadline_core c7_record 4) = c7_record)
    ∧ assert_valid_new_deadline c7_record 12 = .ok () :=
  ⟨(c7_deadline_monotonic c7_record 10 4 rfl).1 (by decide),
   (c7_deadline_monotonic c7_record 10 12 rfl).2 (by decide)⟩

/-- Claim C3 (counterexample): on a `HasFunds` record with balance 2^63 and
amount `a = 2^63 ≤` balance — a withdrawal of `a` from the record succeeds on
its own — `AddFunds a` wraps the u64 amount to 0, the following
`RemoveFunds a` fails with `InsufficientFunds`, and the composite leaves a
corrupted record and balance instead of restoring the original pair. -/
theorem c3_overflow_counterexample :
    remove_sol_core c3_record (2 ^ 63)
      = .ok ({ c3_record with state := .Initialized, lamports := some 0 }, 2 ^ 63)
    ∧ add_then_remove_bal (c3_record, 0) (2 ^ 63)
      = ({ c3_record with lamports := some 0 }, 2 ^ 63)
    ∧ add_then_remove_bal (c3_record, 0) (2 ^ 63) ≠ (c3_record, 0) := by
  refine ⟨rfl, rfl, by decide⟩

/-- Claim C3 (amended): for every record in a withdrawable state (`HasFunds`
or `ReadyUnlocked`) with `locked_amount = v`, and every amount `x ≤ v` such
that `v + x` does not overflow a u64, `AddFunds x` followed immediately by
`RemoveFunds x` restores the record and the lock-account balance exactly. -/
theorem c3_add_remove_roundtrip (a : Account) (v x B : Nat)
    (hst : a.state = .HasFunds ∨ a.state = .ReadyUnlocked)
    (hl : a.lamports = some v) (hx : x ≤ v) (hov : v + x < 2 ^ 64) :
    add_then_remove_bal (a, B) x = (a, B) := by
  obtain ⟨ao, al, ad, asa, ast⟩ := a
  simp only at hl hst
  subst hl
  by_cases hv : v = 0
  · subst hv
    have hx0 : x = 0 := by omega
    subst hx0
    rcases hst with h | h <;> subst h <;>
      simp [add_then_remove_bal, add_sol_core, remove_sol_core,
        assert_sufficient_funds, assert_has_funds, bindE]
  · rcases hst with h | h <;> subst h <;>
      simp only [add_then_remove_bal, add_sol_core, remove_sol_core,
        assert_sufficient_funds, assert_has_funds, bindE, Nat.mod_eq_of_lt hov] <;>
      rw [if_neg (by omega : ¬ v + x < x), if_pos (by omega : v + x > 0)] <;>
      simp only [if_pos (by omega : v + x > x), Nat.add_sub_cancel]

/-- Witness for C3 (amended) at a concrete `HasFunds` record with 5 lamports,
balance 20, amount 3. -/
theorem c3_add_remove_roundtrip_witness :
    add_then_remove_bal
      ({ owner := 1, lamports := some 5, deadline := none, stake_account := none,
         state := .HasFunds }, 20) 3
    = ({ owner := 1, lamports := some 5, deadline := none, stake_account := none,
         state := .HasFunds }, 20) :=
  c3_add_remove_roundtrip _ 5 3 20 (Or.inl rfl) rfl (by decide) (by decide)

theorem unlock_core_not_locked (a : Account) (now : Int) (h : a.state ≠ .Locked) :
    unlock_core a now = .error .invalidInstructionData := by
  unfold unlock_core assert_can_unlock
  rw [if_pos h]
  rfl

theorem unlock_core_premature (a : Account) (now d : Int) (h : a.state = .Locked)
    (hd : a.deadline = some d) (hlt : now < d) :
    unlock_core a now = .error (.custom .PrematureUnlock) := by
  unfold unlock_core assert_can_unlock
  simp [h, hd, hlt, bindE]

theorem unlock_core_success (a : Account) (now d : Int) (l : Nat) (h : a.state = .Locked)
    (hd : a.deadline = some d) (hl : a.lamports = some l) (hge : d ≤ now) :
    unlock_core a now
      = .ok ({ a with
                state := .Initialized,
                lamports := none,
                deadline := none,
                stake_account := none }, l) := by
  unfold unlock_core assert_can_unlock
  simp [h, hd, hl, bindE, show ¬ now < d from by omega]

theorem unlock_full_reduces (env : Env) (idx : Nat) (hr : Bool)
    (hsig : env.owner.is_signer = true)
    (hkey : env.fpa env.owner.key idx env.program_id = env.sol_lock_key)
    (hown : env.sol_lock_storage_owner = env.program_id)
    (hrecv : env.extra.isSome = hr)
    (hinit : env.record.state ≠ .Uninitialized) :
    unlock_full env idx hr
      = bindE (unlock_core env.record env.now) fun ra =>
          .ok (ra.1, ra.2, (match env.extra with | some p => p | none => env.owner).key) := by
  unfold unlock_full assert_receiver_validity
  cases hx : env.extra with
  | none =>
    have hhr : hr = false := by rw [← hrecv, hx]; rfl
    subst hhr
    simp [assert_is_signer, hsig, assert_keys_equal, hkey, assert_owned_by, hown,
      assert_initialized, hinit, bindE]
  | some p =>
    have hhr : hr = true := by rw [← hrecv, hx]; rfl
    subst hhr
    simp [assert_is_signer, hsig, assert_keys_equal, hkey, assert_owned_by, hown,
      assert_initialized, hinit, bindE]

/-- Claim C6: under passing environment checks (owner signs, the passed key
matches the derivation, the program owns the storage, the receiver flag is
consistent, the record is initialized) and the data-model invariants for a
`Locked` record (deadline and locked amount present), `Unlock` succeeds iff
the state is `Locked` and the clock time is at least the stored deadline;
attempted while `Locked` before the deadline it fails with the
`PrematureUnlock` temporal error and the record and both balances are
unchanged; attempted in any other (initialized) state it fails with the state
error `InvalidInstructionData` and the record and balances are unchanged. -/
theorem c6_unlock_gating (env : Env) (idx : Nat) (hr : Bool) (d : Int)
    (hsig : env.owner.is_signer = true)
    (hkey : env.fpa env.owner.key idx env.program_id = env.sol_lock_key)
    (hown : env.sol_lock_storage_owner = env.program_id)
    (hrecv : env.extra.isSome = hr)
    (hinit : env.record.state ≠ .Uninitialized)
    (hdl : env.record.state = .Locked → env.record.deadline = some d)
    (hlam : env.record.state = .Locked → ∃ l, env.record.lamports = some l) :
    ((∃ out, unlock_full env idx hr = .ok out)
      ↔ (env.record.state = .Locked ∧ d ≤ env.now))
    ∧ (env.record.state = .Locked → env.now < d →
        unlock_full env idx hr = .error (.custom .PrematureUnlock)
        ∧ ∀ lb rb, run_unlock env idx hr lb rb = (env.record, lb, rb))
    ∧ (env.record.state ≠ .Locked →
        unlock_full env idx hr = .error .invalidInstructionData
        ∧ ∀ lb rb, run_unlock env idx hr lb rb = (env.record, lb, rb)) := by
  have hpipe := unlock_full_reduces env idx hr hsig hkey hown hrecv hinit
  by_cases hst : env.record.state = .Locked
  · obtain hd' := hdl hst
    obtain ⟨l, hl⟩ := hlam hst
    by_cases hnow : env.now < d
    · have hcore := unlock_core_premature env.record env.now d hst hd' hnow
      rw [hcore] at hpipe
      simp only [bindE] at hpipe
      refine ⟨?_, fun _ _ => ⟨hpipe, fun lb rb => ?_⟩, fun hne => absurd hst hne⟩
      · constructor
        · rintro ⟨out, hout⟩
          rw [hpipe] at hout
          exact Except.noConfusion hout
        · rintro ⟨-, hge⟩
          omega
      · unfold run_unlock
        rw [hpipe]
    · have hcore := unlock_core_success env.record env.now d l hst hd' hl (by omega)
      rw [hcore] at hpipe
      simp only [bindE] at hpipe
      refine ⟨?_, fun _ hlt => absurd hlt hnow, fun hne => absurd hst hne⟩
      constructor
      · intro _
        exact ⟨hst, by omega⟩
      · intro _
        exact ⟨_, hpipe⟩
  · have hcore := unlock_core_not_locked env.record env.now hst
    rw [hcore] at hpipe
    simp only [bindE] at hpipe
    refine ⟨?_, fun hlk => absurd hlk hst, fun _ => ⟨hpipe, fun lb rb => ?_⟩⟩
    · constructor
      · rintro ⟨out, hout⟩
        rw [hpipe] at hout
        exact Except.noConfusion hout
      · rintro ⟨hlk, -⟩
        exact absurd hlk hst
    · unfold run_unlock
      rw [hpipe]

/-- Witness for C6 at the concrete environment whose record is `Initialized`
(not `Locked`): the unlock attempt reports the state error and record and
balances stay as they were. -/
theorem c6_unlock_gating_witness :
    unlock_full sampleEnv 0 false = .error .invalidInstructionData
    ∧ run_unlock sampleEnv 0 false 10 3 = (sampleEnv.record, 10, 3) := by
  have h := (c6_unlock_gating sampleEnv 0 false 0 rfl rfl rfl rfl (by decide)
    (fun hc => absurd hc (by decide)) (fun hc => absurd hc (by decide))).2.2 (by decide)
  exact ⟨h.1, h.2 10 3⟩

theorem bindE_ne_err {α β : Type} (x : Except ProgErr α) (f : α → Except ProgErr β)
    (t : ProgErr) (hx : x ≠ .error t) (hf : ∀ v, f v ≠ .error t) :
    bindE x f ≠ .error t := by
  cases x with
  | error e =>
    rw [show bindE (Except.error e) f = .error e from rfl]
    intro hc
    injection hc with h2
    subst h2
    exact hx rfl
  | ok v =>
    rw [show bindE (Except.ok v) f = f v from rfl]
    exact hf v

theorem map_ne_err {α β : Type} (x : Except ProgErr α) (f : α → β) (t : ProgErr)
    (hx : x ≠ .error t) : x.map f ≠ .error t := by
  cases x with
  | error e =>
    rw [show (Except.error e : Except ProgErr α).map f = .error e from rfl]
    intro hc
    injection hc with h2
    subst h2
    exact hx rfl
  | ok v =>
    rw [show (Except.ok v : Except ProgErr α).map f = .ok (f v) from rfl]
    simp

theorem assert_is_signer_ne_cri (m : AccountMeta) :
    assert_is_signer m ≠ .error (.custom .ConflictingReceiverInfo) := by
  unfold assert_is_signer
  split <;> simp

theorem assert_keys_equal_ne_cri (k1 k2 : Nat) :
    assert_keys_equal k1 k2 ≠ .error (.custom .ConflictingReceiverInfo) := by
  unfold assert_keys_equal
  split <;> simp

theorem assert_owned_by_ne_cri (k1 k2 : Nat) :
    assert_owned_by k1 k2 ≠ .error (.custom .ConflictingReceiverInfo) := by
  unfold assert_owned_by
  split <;> simp

theorem assert_initialized_ne_cri (a : Account) :
    assert_initialized a ≠ .error (.custom .ConflictingReceiverInfo) := by
  unfold assert_initialized
  split <;> simp

theorem assert_receiver_validity_ne_cri (o : AccountMeta) (r : Option AccountMeta) (hr : Bool) :
    assert_receiver_validity o r hr ≠ .error (.custom .ConflictingReceiverInfo) := by
  unfold assert_receiver_validity
  split <;> split_ifs <;> simp_all

theorem assert_sufficient_funds_ne_cri (a : Account) (l : Nat) :
    assert_sufficient_funds a l ≠ .error (.custom .ConflictingReceiverInfo) := by
  unfold assert_sufficient_funds
  split
  · simp
  · split <;> simp

theorem assert_has_funds_ne_cri (a : Account) :
    assert_has_funds a ≠ .error (.custom .ConflictingReceiverInfo) := by
  unfold assert_has_funds
  split
  · split <;> simp
  · simp

theorem assert_valid_new_deadline_ne_cri (a : Account) (d : Int) :
    assert_valid_new_deadline a d ≠ .error (.custom .ConflictingReceiverInfo) := by
  unfold assert_valid_new_deadline
  split
  · split <;> simp
  · simp

theorem assert_can_lock_ne_cri (a : Account) :
    assert_can_lock a ≠ .error (.custom .ConflictingReceiverInfo) := by
  unfold assert_can_lock
  split <;> simp

theorem assert_can_unlock_ne_cri (a : Account) (now : Int) :
    assert_can_unlock a now ≠ .error (.custom .ConflictingReceiverInfo) := by
  unfold assert_can_unlock
  split
  · simp
  · split
    · simp
    · split <;> simp

theorem add_sol_core_ne_cri (a : Account) (l : Nat) :
    add_sol_core a l ≠ .error (.custom .ConflictingReceiverInfo) := by
  unfold add_sol_core
  split <;> (try split) <;> simp

theorem remove_sol_core_ne_cri (a : Account) (l : Nat) :
    remove_sol_core a l ≠ .error (.custom .ConflictingReceiverInfo) := by
  unfold remove_sol_core
  refine bindE_ne_err _ _ _ (assert_sufficient_funds_ne_cri a l) fun _ => ?_
  refine bindE_ne_err _ _ _ (assert_has_funds_ne_cri a) fun _ => ?_
  split <;> (try split) <;> simp

theorem set_deadline_core_ne_cri (a : Account) (d : Int) :
    set_deadline_core a d ≠ .error (.custom .ConflictingReceiverInfo) := by
  unfold set_deadline_core
  refine bindE_ne_err _ _ _ (assert_valid_new_deadline_ne_cri a d) fun _ => ?_
  split <;> simp

theorem lock_core_ne_cri (a : Account) :
    lock_core a ≠ .error (.custom .ConflictingReceiverInfo) := by
  unfold lock_core
  refine bindE_ne_err _ _ _ (assert_can_lock_ne_cri a) fun _ => ?_
  split <;> simp

theorem unlock_core_ne_cri (a : Account) (now : Int) :
    unlock_core a now ≠ .error (.custom .ConflictingReceiverInfo) := by
  unfold unlock_core
  refine bindE_ne_err _ _ _ (assert_can_unlock_ne_cri a now) fun _ => ?_
  split <;> (try split) <;> simp

theorem create_account_ne_cri (env : Env) (idx : Nat) :
    create_account env idx ≠ .error (.custom .ConflictingReceiverInfo) := by
  unfold create_account
  refine bindE_ne_err _ _ _ (assert_is_signer_ne_cri _) fun _ => ?_
  refine bindE_ne_err _ _ _ (assert_keys_equal_ne_cri _ _) fun _ => ?_
  refine bindE_ne_err _ _ _ (assert_owned_by_ne_cri _ _) fun _ => ?_
  simp

theorem add_sol_ne_cri (env : Env) (idx l : Nat) (hp : Bool) :
    add_sol env idx l hp ≠ .error (.custom .ConflictingReceiverInfo) := by
  unfold add_sol
  refine bindE_ne_err _ _ _ ?_ fun payer => ?_
  · split <;> split_ifs <;> simp_all
  · refine bindE_ne_err _ _ _ (assert_is_signer_ne_cri _) fun _ => ?_
    refine bindE_ne_err _ _ _ (assert_is_signer_ne_cri _) fun _ => ?_
    refine bindE_ne_err _ _ _ (assert_keys_equal_ne_cri _ _) fun _ => ?_
    refine bindE_ne_err _ _ _ (assert_owned_by_ne_cri _ _) fun _ => ?_
    refine bindE_ne_err _ _ _ (assert_initialized_ne_cri _) fun _ => ?_
    refine bindE_ne_err _ _ _ (add_sol_core_ne_cri _ _) fun _ => ?_
    simp

theorem remove_sol_full_ne_cri (env : Env) (idx l : Nat) (hr : Bool) :
    remove_sol_full env idx l hr ≠ .error (.custom .ConflictingReceiverInfo) := by
  unfold remove_sol_full
  refine bindE_ne_err _ _ _ (assert_receiver_validity_ne_cri _ _ _) fun _ => ?_
  refine bindE_ne_err _ _ _ (assert_is_signer_ne_cri _) fun _ => ?_
  refine bindE_ne_err _ _ _ (assert_keys_equal_ne_cri _ _) fun _ => ?_
  refine bindE_ne_err _ _ _ (assert_owned_by_ne_cri _ _) fun _ => ?_
  refine bindE_ne_err _ _ _ (assert_initialized_ne_cri _) fun _ => ?_
  refine bindE_ne_err _ _ _ (remove_sol_core_ne_cri _ _) fun _ => ?_
  simp

theorem set_deadline_full_ne_cri (env : Env) (idx : Nat) (d : Int) :
    set_deadline_full env idx d ≠ .error (.custom .ConflictingReceiverInfo) := by
  unfold set_deadline_full
  refine bindE_ne_err _ _ _ (assert_is_signer_ne_cri _) fun _ => ?_
  refine bindE_ne_err _ _ _ (assert_keys_equal_ne_cri _ _) fun _ => ?_
  refine bindE_ne_err _ _ _ (assert_owned_by_ne_cri _ _) fun _ => ?_
  refine bindE_ne_err _ _ _ (assert_initialized_ne_cri _) fun _ => ?_
  exact set_deadline_core_ne_cri _ _

theorem lock_full_ne_cri (env : Env) (idx : Nat) :
    lock_full env idx ≠ .error (.custom .ConflictingReceiverInfo) := by
  unfold lock_full
  refine bindE_ne_err _ _ _ (assert_is_signer_ne_cri _) fun _ => ?_
  refine bindE_ne_err _ _ _ (assert_keys_equal_ne_cri _ _) fun _ => ?_
  refine bindE_ne_err _ _ _ (assert_owned_by_ne_cri _ _) fun _ => ?_
  refine bindE_ne_err _ _ _ (assert_initialized_ne_cri _) fun _ => ?_
  exact lock_core_ne_cri _

theorem unlock_full_ne_cri (env : Env) (idx : Nat) (hr : Bool) :
    unlock_full env idx hr ≠ .error (.custom .ConflictingReceiverInfo) := by
  unfold unlock_full
  refine bindE_ne_err _ _ _ (assert_receiver_validity_ne_cri _ _ _) fun _ => ?_
  refine bindE_ne_err _ _ _ (assert_is_signer_ne_cri _) fun _ => ?_
  refine bindE_ne_err _ _ _ (assert_keys_equal_ne_cri _ _) fun _ => ?_
  refine bindE_ne_err _ _ _ (assert_owned_by_ne_cri _ _) fun _ => ?_
  refine bindE_ne_err _ _ _ (assert_initialized_ne_cri _) fun _ => ?_
  refine bindE_ne_err _ _ _ (unlock_core_ne_cri _ _) fun _ => ?_
  simp

theorem process_instruction_ne_cri (env : Env) (i : SolLockInstruction) :
    process_instruction env i ≠ .error (.custom .ConflictingReceiverInfo) := by
  cases i with
  | CreateAccount idx => exact map_ne_err _ _ _ (create_account_ne_cri env idx)
  | AddSol idx l hp => exact map_ne_err _ _ _ (add_sol_ne_cri env idx l hp)
  | RemoveSol idx l hr => exact map_ne_err _ _ _ (remove_sol_full_ne_cri env idx l hr)
  | SetDeadline idx d => exact map_ne_err _ _ _ (set_deadline_full_ne_cri env idx d)
  | Lock idx => exact map_ne_err _ _ _ (lock_full_ne_cri env idx)
  | Unlock idx hr => exact map_ne_err _ _ _ (unlock_full_ne_cri env idx hr)
  | Stake idx => simp [process_instruction]
  | Unstake idx => simp [process_instruction]

/-- Claim C10: whenever the `has_receiver` flag disagrees with whether a
receiver account was supplied, `RemoveFunds` and `Unlock` fail with the
payer-conflict tag `ConflictingPayerInfo`; and no operation dispatched by the
processor ever produces the `ConflictingReceiverInfo` error. -/
theorem c10_conflicting_receiver_never_used :
    (∀ (env : Env) (idx l : Nat) (hr : Bool), env.extra.isSome ≠ hr →
      remove_sol_full env idx l hr = .error (.custom .ConflictingPayerInfo)
      ∧ unlock_full env idx hr = .error (.custom .ConflictingPayerInfo))
    ∧ ∀ (env : Env) (i : SolLockInstruction),
        process_instruction env i ≠ .error (.custom .ConflictingReceiverInfo) := by
  constructor
  · intro env idx l hr hmis
    unfold remove_sol_full unlock_full assert_receiver_validity
    cases hx : env.extra with
    | none =>
      have hhr : hr = true := by
        cases hr
        · rw [hx] at hmis; exact absurd rfl hmis
        · rfl
      subst hhr
      exact ⟨rfl, rfl⟩
    | some p =>
      have hhr : hr = false := by
        cases hr
        · rfl
        · rw [hx] at hmis; exact absurd rfl hmis
      subst hhr
      exact ⟨rfl, rfl⟩
  · exact process_instruction_ne_cri

/-- Witness for C10: with no receiver account supplied but `has_receiver`
set, both `RemoveFunds` and `Unlock` report `ConflictingPayerInfo`, and a
sample dispatch never reports `ConflictingReceiverInfo`. -/
theorem c10_conflicting_receiver_never_used_witness :
    remove_sol_full sampleEnv 0 5 true = .error (.custom .ConflictingPayerInfo)
    ∧ unlock_full sampleEnv 0 true = .error (.custom .ConflictingPayerInfo)
    ∧ process_instruction sampleEnv (.RemoveSol 0 5 true)
        ≠ .error (.custom .ConflictingReceiverInfo) :=
  ⟨(c10_conflicting_receiver_never_used.1 sampleEnv 0 5 true (by decide)).1,
   (c10_conflicting_receiver_never_used.1 sampleEnv 0 5 true (by decide)).2,
   c10_conflicting_receiver_never_used.2 sampleEnv (.RemoveSol 0 5 true)⟩

end SolLock
